import Mathlib

/-
Verification development for exifextract.py.

The script is shallowly embedded: Python values appearing as EXIF tag values
become the inductive type `PyVal`; Python float arithmetic is idealised as
exact rational arithmetic over `ℚ`; fallible Python code (division that may
raise `ZeroDivisionError`, strict utf-8 decoding that may raise
`UnicodeDecodeError`) returns `Except String _`, the `String` standing for the
text of the exception that the caller interpolates into its error message.
ANSI colour-styling escape codes emitted by colorama are presentation-only and
are omitted from the modelled display strings.
-/

set_option autoImplicit false

deriving instance DecidableEq for Except

namespace ExifExtract

/-- A raw Python value as it occurs among EXIF tag values: `None`, an integer,
a text string, a byte string, or a (possibly nested) tuple of such values. -/
inductive PyVal where
  | none
  | int (n : ℤ)
  | str (s : String)
  | bytes (bs : List ℕ)
  | tup (vs : List PyVal)

/-- The single-quote character, written by code so that the source file itself
contains no quote literal. -/
def pyQuote : String := String.mk [Char.ofNat 39]

/-- A printable-ascii rendering of a byte string body (used only inside
`pyValRepr` for the `bytes` case, which no claim exercises). -/
def asciiBody (bs : List ℕ) : String := String.mk (bs.map Char.ofNat)

mutual

/-- Python `repr`, for the value shapes of `PyVal`: `None`, integers, quoted
strings and byte strings (escaping not modelled), and tuples rendered with
comma-space separators and the trailing comma of a 1-tuple. -/
def pyValRepr : PyVal → String
  | PyVal.none => "None"
  | PyVal.int n => toString n
  | PyVal.str s => pyQuote ++ s ++ pyQuote
  | PyVal.bytes bs => "b" ++ pyQuote ++ asciiBody bs ++ pyQuote
  | PyVal.tup [] => "()"
  | PyVal.tup [v] => "(" ++ pyValRepr v ++ ",)"
  | PyVal.tup (v :: w :: vs) =>
      "(" ++ String.intercalate ", " (pyValReprList (v :: w :: vs)) ++ ")"

/-- `repr` mapped over a list of values. -/
def pyValReprList : List PyVal → List String
  | [] => []
  | v :: vs => pyValRepr v :: pyValReprList vs

end

/-- Python `str`: identical to `repr` except on text strings, which print
unquoted. -/
def pyValStr : PyVal → String
  | PyVal.str s => s
  | v => pyValRepr v

/-- True exactly when `b` is a utf-8 continuation byte (`0x80`–`0xBF`). -/
def isCont (b : ℕ) : Bool := decide (0x80 ≤ b ∧ b ≤ 0xBF)

/-- Lower bound for the first continuation byte after lead byte `b`
(utf-8 excludes overlong encodings: `0xE0` needs `≥ 0xA0`, `0xF0` needs
`≥ 0x90`). -/
def contLo (b : ℕ) : ℕ := if b = 0xE0 then 0xA0 else if b = 0xF0 then 0x90 else 0x80

/-- Upper bound for the first continuation byte after lead byte `b`
(utf-8 excludes surrogates after `0xED` and code points above `U+10FFFF`
after `0xF4`). -/
def contHi (b : ℕ) : ℕ := if b = 0xED then 0x9F else if b = 0xF4 then 0x8F else 0xBF

/-- True exactly when `b2` is valid as the first continuation byte of a
multi-byte sequence led by `b`. -/
def isCont2 (b b2 : ℕ) : Bool := decide (contLo b ≤ b2 ∧ b2 ≤ contHi b)

/-- Decode a utf-8 byte sequence into characters, skipping invalid bytes, as
Python `bytes.decode` with `errors=ignore` does: an invalid lead byte is
dropped; a valid lead followed by an invalid continuation byte is dropped and
decoding resumes at the offending byte; a sequence truncated by the end of
input is dropped. This decoder never fails. The first argument is fuel making
the recursion structural; each step consumes at least one byte and one unit
of fuel, so `utf8DecodeIgnoreChars` below, which supplies the byte count as
fuel, never exhausts it. -/
def utf8DecodeIgnoreAux : ℕ → List ℕ → List Char
  | _, [] => []
  | 0, _ => []
  | fuel + 1, b :: rest =>
    if b ≤ 0x7F then Char.ofNat b :: utf8DecodeIgnoreAux fuel rest
    else if 0xC2 ≤ b ∧ b ≤ 0xDF then
      match rest with
      | [] => []
      | b2 :: rest2 =>
        if isCont b2 then
          Char.ofNat ((b - 0xC0) * 0x40 + (b2 - 0x80)) :: utf8DecodeIgnoreAux fuel rest2
        else utf8DecodeIgnoreAux fuel (b2 :: rest2)
    else if 0xE0 ≤ b ∧ b ≤ 0xEF then
      match rest with
      | [] => []
      | b2 :: rest2 =>
        if isCont2 b b2 then
          match rest2 with
          | [] => []
          | b3 :: rest3 =>
            if isCont b3 then
              Char.ofNat ((b - 0xE0) * 0x1000 + (b2 - 0x80) * 0x40 + (b3 - 0x80)) ::
                utf8DecodeIgnoreAux fuel rest3
            else utf8DecodeIgnoreAux fuel (b3 :: rest3)
        else utf8DecodeIgnoreAux fuel (b2 :: rest2)
    else if 0xF0 ≤ b ∧ b ≤ 0xF4 then
      match rest with
      | [] => []
      | b2 :: rest2 =>
        if isCont2 b b2 then
          match rest2 with
          | [] => []
          | b3 :: rest3 =>
            if isCont b3 then
              match rest3 with
              | [] => []
              | b4 :: rest4 =>
                if isCont b4 then
                  Char.ofNat ((b - 0xF0) * 0x40000 + (b2 - 0x80) * 0x1000 +
                      (b3 - 0x80) * 0x40 + (b4 - 0x80)) :: utf8DecodeIgnoreAux fuel rest4
                else utf8DecodeIgnoreAux fuel (b4 :: rest4)
            else utf8DecodeIgnoreAux fuel (b3 :: rest3)
        else utf8DecodeIgnoreAux fuel (b2 :: rest2)
    else utf8DecodeIgnoreAux fuel rest

/-- The utf-8 ignore-mode decoder at its own byte count of fuel. -/
def utf8DecodeIgnoreChars (bs : List ℕ) : List Char := utf8DecodeIgnoreAux bs.length bs

/-- Python `bytes.decode` with `errors=ignore`, producing a string. -/
def utf8DecodeIgnore (bs : List ℕ) : String := String.mk (utf8DecodeIgnoreChars bs)

/-- True exactly when `bs` is a well-formed utf-8 encoding, so that a strict
decode succeeds. -/
def utf8Valid : List ℕ → Bool
  | [] => true
  | b :: rest =>
    if b ≤ 0x7F then utf8Valid rest
    else if 0xC2 ≤ b ∧ b ≤ 0xDF then
      match rest with
      | [] => false
      | b2 :: rest2 => isCont b2 && utf8Valid rest2
    else if 0xE0 ≤ b ∧ b ≤ 0xEF then
      match rest with
      | b2 :: b3 :: rest3 => isCont2 b b2 && isCont b3 && utf8Valid rest3
      | _ => false
    else if 0xF0 ≤ b ∧ b ≤ 0xF4 then
      match rest with
      | b2 :: b3 :: b4 :: rest4 => isCont2 b b2 && isCont b3 && isCont b4 && utf8Valid rest4
      | _ => false
    else false

/-- Python strict `bytes.decode` (the default `errors` mode), which raises
`UnicodeDecodeError` on malformed input; the error branch carries the
exception text. -/
def utf8DecodeStrict (bs : List ℕ) : Except String String :=
  if utf8Valid bs then Except.ok (utf8DecodeIgnore bs)
  else Except.error "invalid utf-8 byte sequence"

/-- Embedding of `format_value` (exifextract.py lines 10–19): a byte string is
decoded ignoring undecodable bytes (the scripts `except UnicodeDecodeError`
arm returning a byte-count placeholder is unreachable, since decoding with
`errors=ignore` never raises); a tuple joins the `str` of its elements with
single spaces; anything else is rendered with `str`. -/
def format_value : PyVal → String
  | PyVal.bytes bs => utf8DecodeIgnore bs
  | PyVal.tup vs => String.intercalate " " (vs.map pyValStr)
  | v => pyValStr v

/-- An exact fraction of integers, kept unreduced. Python computes these
quantities in double-precision floats; the embedding idealises that
arithmetic as exact fraction arithmetic, whose meaning as a rational number
is `Frac.toRat`. Every operation of the script keeps denominators non-zero
whenever its inputs have non-zero denominators. -/
structure Frac where
  num : ℤ
  den : ℤ
deriving DecidableEq

/-- The rational number a fraction denotes. -/
def Frac.toRat (f : Frac) : ℚ := (f.num : ℚ) / (f.den : ℚ)

/-- Exact addition of fractions (no reduction). -/
def Frac.add (f g : Frac) : Frac := ⟨f.num * g.den + g.num * f.den, f.den * g.den⟩

/-- Exact division of a fraction by an integer constant (no reduction). -/
def Frac.divInt (f : Frac) (k : ℤ) : Frac := ⟨f.num, f.den * k⟩

/-- Exact negation of a fraction. -/
def Frac.neg (f : Frac) : Frac := ⟨-f.num, f.den⟩

/-- True exactly when the fraction denotes a negative number. -/
def Frac.isNeg (f : Frac) : Bool := decide (f.num * f.den < 0)

/-- A rational EXIF measurement: a (numerator, denominator) pair of integers,
the denominator not validated to be non-zero. -/
abbrev Rational := ℤ × ℤ

/-- A degree/minute/second coordinate: a triple of `Rational` pairs. -/
abbrev GpsTriple := Rational × Rational × Rational

/-- Python division `n / d` on integers: raises `ZeroDivisionError` when
`d = 0`, otherwise produces the exact quotient. -/
def pydiv (n d : ℤ) : Except String Frac :=
  if d = 0 then Except.error "division by zero" else Except.ok ⟨n, d⟩

/-- Embedding of `convert_to_decimal` (exifextract.py lines 21–24):
`degrees[0]/degrees[1] + minutes[0]/minutes[1]/60.0 + seconds[0]/seconds[1]/3600.0`,
the three divisions performed left to right, each able to raise on a zero
denominator. -/
def convert_to_decimal (t : GpsTriple) : Except String Frac := do
  let d ← pydiv t.1.1 t.1.2
  let m ← pydiv t.2.1.1 t.2.1.2
  let s ← pydiv t.2.2.1 t.2.2.2
  pure ((d.add (m.divInt 60)).add (s.divInt 3600))

/-- Zero-left-pad the decimal string `s` to `k` characters. -/
def natPad (s : String) (k : ℕ) : String :=
  String.mk (List.replicate (k - s.length) (Char.ofNat 48)) ++ s

/-- Python fixed-point formatting of a number to `k` decimal places (the
format specifier `.kf`): sign of the value, then the magnitude rounded to `k`
fractional digits, always showing exactly `k` digits. The rounded scaled
magnitude `(2·|num|·10^k + |den|) / (2·|den|)` is exactly
`⌊|value|·10^k + 1/2⌋` (`formatFixed_scaled_eq_floor` below). -/
def formatFixed (f : Frac) (k : ℕ) : String :=
  let an := f.num.natAbs
  let ad := f.den.natAbs
  let n : ℕ := (2 * an * 10 ^ k + ad) / (2 * ad)
  (if f.isNeg then "-" else "") ++ toString (n / 10 ^ k) ++ "." ++ natPad (toString (n % 10 ^ k)) k

/-- The first `k` decimal digits of the proper fraction `num / den`
(`num < den`), by long division. -/
def fracDigits (num den : ℕ) : ℕ → List ℕ
  | 0 => []
  | k + 1 => num * 10 / den :: fracDigits (num * 10 % den) den k

/-- Drop the trailing zero digits of a digit list. -/
def dropTrailingZeros (l : List ℕ) : List ℕ :=
  (l.reverse.dropWhile (fun d => d = 0)).reverse

/-- Python `str` of a float value, idealised at exact precision: sign,
integer part, a decimal point, then the fractional digits (up to 17 of them,
trailing zeros trimmed, a single `0` when the value is integral). The
idealisation keeps digits exact where a Python double would round its tail;
every value this development evaluates it on is exact well within double
precision or diverges from the claim under scrutiny in its leading digits. -/
def pyFloatStr (f : Frac) : String :=
  let an := f.num.natAbs
  let ad := f.den.natAbs
  let ds := dropTrailingZeros (fracDigits (an % ad) ad 17)
  (if f.isNeg then "-" else "") ++ toString (an / ad) ++ "." ++
    (if ds.isEmpty then "0" else String.mk (ds.map (fun d => Char.ofNat (48 + d))))

/-- Embedding of `get_google_maps_url` (exifextract.py lines 26–28): the
f-string interpolates `str` of the two float coordinates into the query. -/
def get_google_maps_url (latitude longitude : Frac) : String :=
  "https://www.google.com/maps?q=" ++ pyFloatStr latitude ++ "," ++ pyFloatStr longitude

/-- The GPS section of the Metadata Dictionary, modelled as the results of
the fourteen `gps_info.get(...)` calls of `parse_gps_data` (exifextract.py
lines 35–48): `none` models a tag absent from the section. Reference letters
are kept as the raw byte strings the script decodes. A present coordinate
triple or rational pair is a non-empty tuple, hence truthy in Python, so
Python truthiness of these values coincides with `Option.isSome`; a present
reference byte string can still be empty and falsy, which the embedding
checks where the script tests it. -/
structure GpsInfo where
  latitudeRef : Option (List ℕ)
  longitudeRef : Option (List ℕ)
  latitude : Option GpsTriple
  longitude : Option GpsTriple
  altitude : Option Rational
  timeStamp : Option PyVal
  speedRef : Option (List ℕ)
  speed : Option Rational
  imgDirectionRef : Option (List ℕ)
  imgDirection : Option Rational
  destBearingRef : Option (List ℕ)
  destBearing : Option Rational
  dateStamp : Option PyVal
  posError : Option Rational

/-- The Altitude entry of the GPS display dictionary (exifextract.py line 65):
`altitude[0] / altitude[1]` formatted to two decimal places with a unit when
the tag is present and truthy, else the literal `N/A`. -/
def altitude_field : Option Rational → Except String String
  | Option.none => pure "N/A"
  | some a => do
      let q ← pydiv a.1 a.2
      pure (formatFixed q 2 ++ " meters")

/-- The Speed / ImgDirection / DestBearing entries of the GPS display
dictionary (exifextract.py lines 67–69): when both the rational and its
reference byte string are truthy, `value[0] / value[1]` in `str` form followed
by the strictly decoded reference; otherwise the literal `N/A`. -/
def ref_tagged_field : Option Rational → Option (List ℕ) → Except String String
  | some v, some rb =>
      if rb = [] then pure "N/A"
      else do
        let q ← pydiv v.1 v.2
        let r ← utf8DecodeStrict rb
        pure (pyFloatStr q ++ " " ++ r)
  | _, _ => pure "N/A"

/-- The PosError entry of the GPS display dictionary (exifextract.py line 71):
`pos_error[0] / pos_error[1]` in plain `str` form (no two-decimal format
specifier) with a unit when present, else the literal `N/A`. -/
def pos_error_field : Option Rational → Except String String
  | Option.none => pure "N/A"
  | some p => do
      let q ← pydiv p.1 p.2
      pure (pyFloatStr q ++ " meters")

/-- The all-`N/A` GPS display dictionary returned when latitude or longitude
is missing (exifextract.py lines 73–84), as an ordered key/value list. -/
def naFields : List (String × String) :=
  [("Latitude", "N/A"), ("Longitude", "N/A"), ("Google Maps URL", "N/A"),
   ("Altitude", "N/A"), ("TimeStamp", "N/A"), ("Speed", "N/A"),
   ("ImgDirection", "N/A"), ("DestBearing", "N/A"), ("DateStamp", "N/A"),
   ("PosError", "N/A")]

/-- Embedding of `parse_gps_data` (exifextract.py lines 30–84). The two
hemisphere reference byte strings (defaulted to `N` / `W`, ascii 78 / 87) are
strictly decoded first, as on lines 35–36; when both coordinate triples are
present they are converted, signed by the `S` / `W` rules, and the ten display
entries are produced in the dictionary order of lines 61–72, evaluating the
fallible entries in that same order; otherwise the all-`N/A` dictionary is
returned. The result is the ordered key/value list of the returned dict. -/
def parse_gps_data (g : GpsInfo) : Except String (List (String × String)) := do
  let latitude_ref ← utf8DecodeStrict (g.latitudeRef.getD [78])
  let longitude_ref ← utf8DecodeStrict (g.longitudeRef.getD [87])
  match g.latitude, g.longitude with
  | some latT, some lonT => do
      let latd ← convert_to_decimal latT
      let lond ← convert_to_decimal lonT
      let lat_decimal := if latitude_ref = "S" then latd.neg else latd
      let lon_decimal := if longitude_ref = "W" then lond.neg else lond
      let google_maps_url := get_google_maps_url lat_decimal lon_decimal
      let altF ← altitude_field g.altitude
      let tsF := format_value (g.timeStamp.getD PyVal.none)
      let spF ← ref_tagged_field g.speed g.speedRef
      let idF ← ref_tagged_field g.imgDirection g.imgDirectionRef
      let dbF ← ref_tagged_field g.destBearing g.destBearingRef
      let dsF := format_value (g.dateStamp.getD PyVal.none)
      let peF ← pos_error_field g.posError
      pure [("Latitude", formatFixed lat_decimal 6 ++ " " ++ latitude_ref),
            ("Longitude", formatFixed lon_decimal 6 ++ " " ++ longitude_ref),
            ("Google Maps URL", google_maps_url),
            ("Altitude", altF),
            ("TimeStamp", tsF),
            ("Speed", spF),
            ("ImgDirection", idF),
            ("DestBearing", dbF),
            ("DateStamp", dsF),
            ("PosError", peF)]
  | _, _ => pure naFields

/-- The GPS step of `get_exif_data` (exifextract.py lines 118–154): the
`try` block computes and prints the GPS display entries two-space indented
(lines 133–136); any exception raised inside is caught by the enclosing
`except Exception` (line 153), which prints the single generic error line
with the exception text and ends the extraction. -/
def get_exif_data_gps_step (g : GpsInfo) : List String :=
  match parse_gps_data g with
  | Except.ok fields => fields.map (fun kv => "  " ++ kv.1 ++ ": " ++ kv.2)
  | Except.error e => ["Error extracting EXIF data: " ++ e]

/-- A decoded Metadata Dictionary restricted to what `print_exif_data`
reads: an ordered association list from section name to the ordered list of
(numeric tag id, raw value) pairs of that section. -/
abbrev ExifDict := List (String × List (ℕ × PyVal))

/-- Python `exif_dict[ifd_name]` guarded by `ifd_name in exif_dict`. -/
def lookupSection (d : ExifDict) (name : String) : Option (List (ℕ × PyVal)) :=
  (d.find? (fun kv => kv.1 = name)).map (fun kv => kv.2)

/-- Tag-name resolution of exifextract.py line 98:
`piexif.TAGS[ifd_name].get(tag_id, {}).get(name, tag_id)` — the static name
table (external reference data, abstracted as `tags`) when it knows the id,
else the raw numeric id, which prints as its decimal form. -/
def resolveTagName (tags : String → ℕ → Option String) (ifd : String) (id : ℕ) : String :=
  (tags ifd id).getD (toString id)

/-- The tag loop of `print_exif_data` (exifextract.py lines 97–102): each tag
prints as an indented `name: formatted_value` line, except that a tag whose
resolved name is `MakerNote` is skipped with `continue`. -/
def printTagLines (tags : String → ℕ → Option String) (ifd : String) :
    List (ℕ × PyVal) → List String
  | [] => []
  | (id, v) :: rest =>
    let tag_name := resolveTagName tags ifd id
    if tag_name = "MakerNote" then printTagLines tags ifd rest
    else ("  " ++ tag_name ++ ": " ++ format_value v) :: printTagLines tags ifd rest

/-- Embedding of `print_exif_data` (exifextract.py lines 90–102) as the list
of lines it prints: a no-data notice when the section is absent, else the
section header followed by one line per non-`MakerNote` tag. -/
def print_exif_data (tags : String → ℕ → Option String) (d : ExifDict)
    (ifd_name : String) : List String :=
  match lookupSection d ifd_name with
  | Option.none => [ifd_name ++ " EXIF Data: No data found."]
  | some entries => (ifd_name ++ " EXIF Data:") :: printTagLines tags ifd_name entries

/-! Concrete GPS sections used as test inputs. -/

/-- Latitude (40,1),(30,1),(0,1) with reference S; longitude zero with
reference E; no other tags. -/
def gpsSouth : GpsInfo :=
  { latitudeRef := some [83], longitudeRef := some [69],
    latitude := some ((40, 1), (30, 1), (0, 1)),
    longitude := some ((0, 1), (0, 1), (0, 1)),
    altitude := Option.none, timeStamp := Option.none, speedRef := Option.none,
    speed := Option.none, imgDirectionRef := Option.none, imgDirection := Option.none,
    destBearingRef := Option.none, destBearing := Option.none,
    dateStamp := Option.none, posError := Option.none }

/-- The display entries `parse_gps_data` produces for `gpsSouth`. -/
def gpsSouthFields : List (String × String) :=
  [("Latitude", "-40.500000 S"), ("Longitude", "0.000000 E"),
   ("Google Maps URL", "https://www.google.com/maps?q=-40.5,0.0"),
   ("Altitude", "N/A"), ("TimeStamp", "None"), ("Speed", "N/A"),
   ("ImgDirection", "N/A"), ("DestBearing", "N/A"), ("DateStamp", "None"),
   ("PosError", "N/A")]

/-- Latitude (10,1),(0,1),(0,1) and longitude (20,1),(0,1),(0,1) with both
hemisphere reference tags absent; no other tags. -/
def gpsNoRefs : GpsInfo :=
  { latitudeRef := Option.none, longitudeRef := Option.none,
    latitude := some ((10, 1), (0, 1), (0, 1)),
    longitude := some ((20, 1), (0, 1), (0, 1)),
    altitude := Option.none, timeStamp := Option.none, speedRef := Option.none,
    speed := Option.none, imgDirectionRef := Option.none, imgDirection := Option.none,
    destBearingRef := Option.none, destBearing := Option.none,
    dateStamp := Option.none, posError := Option.none }

/-- The display entries `parse_gps_data` produces for `gpsNoRefs`. -/
def gpsNoRefsFields : List (String × String) :=
  [("Latitude", "10.000000 N"), ("Longitude", "-20.000000 W"),
   ("Google Maps URL", "https://www.google.com/maps?q=10.0,-20.0"),
   ("Altitude", "N/A"), ("TimeStamp", "None"), ("Speed", "N/A"),
   ("ImgDirection", "N/A"), ("DestBearing", "N/A"), ("DateStamp", "None"),
   ("PosError", "N/A")]

/-- A latitude present (with altitude and a time stamp) but no longitude. -/
def gpsLatOnly : GpsInfo :=
  { latitudeRef := some [78], longitudeRef := Option.none,
    latitude := some ((1, 1), (2, 1), (3, 1)), longitude := Option.none,
    altitude := some (100, 1),
    timeStamp := some (PyVal.tup [PyVal.int 10, PyVal.int 20, PyVal.int 30]),
    speedRef := Option.none, speed := Option.none, imgDirectionRef := Option.none,
    imgDirection := Option.none, destBearingRef := Option.none,
    destBearing := Option.none, dateStamp := Option.none, posError := Option.none }

/-- Latitude with a zero denominator in the degrees rational, longitude
present, both reference tags absent. -/
def gpsZeroDen : GpsInfo :=
  { latitudeRef := Option.none, longitudeRef := Option.none,
    latitude := some ((40, 0), (30, 1), (0, 1)),
    longitude := some ((0, 1), (0, 1), (0, 1)),
    altitude := Option.none, timeStamp := Option.none, speedRef := Option.none,
    speed := Option.none, imgDirectionRef := Option.none, imgDirection := Option.none,
    destBearingRef := Option.none, destBearing := Option.none,
    dateStamp := Option.none, posError := Option.none }

/-- The spec example: latitude 48° 51ʹ 29ʺ N, longitude 2° 17ʹ 40ʺ E. -/
def gpsParis : GpsInfo :=
  { latitudeRef := some [78], longitudeRef := some [69],
    latitude := some ((48, 1), (51, 1), (29, 1)),
    longitude := some ((2, 1), (17, 1), (40, 1)),
    altitude := Option.none, timeStamp := Option.none, speedRef := Option.none,
    speed := Option.none, imgDirectionRef := Option.none, imgDirection := Option.none,
    destBearingRef := Option.none, destBearing := Option.none,
    dateStamp := Option.none, posError := Option.none }

/-- The display entries `parse_gps_data` produces for `gpsParis`. -/
def gpsParisFields : List (String × String) :=
  [("Latitude", "48.858056 N"), ("Longitude", "2.294444 E"),
   ("Google Maps URL",
     "https://www.google.com/maps?q=48.85805555555555555,2.29444444444444444"),
   ("Altitude", "N/A"), ("TimeStamp", "None"), ("Speed", "N/A"),
   ("ImgDirection", "N/A"), ("DestBearing", "N/A"), ("DateStamp", "None"),
   ("PosError", "N/A")]

/-- Coordinates 1° N, 2° E with neither time stamp nor date stamp. -/
def gpsNoStamps : GpsInfo :=
  { latitudeRef := some [78], longitudeRef := some [69],
    latitude := some ((1, 1), (0, 1), (0, 1)),
    longitude := some ((2, 1), (0, 1), (0, 1)),
    altitude := Option.none, timeStamp := Option.none, speedRef := Option.none,
    speed := Option.none, imgDirectionRef := Option.none, imgDirection := Option.none,
    destBearingRef := Option.none, destBearing := Option.none,
    dateStamp := Option.none, posError := Option.none }

/-- Coordinates 1° N, 2° E with a tuple-of-rationals time stamp and a byte
string date stamp. -/
def gpsStamps : GpsInfo :=
  { latitudeRef := some [78], longitudeRef := some [69],
    latitude := some ((1, 1), (0, 1), (0, 1)),
    longitude := some ((2, 1), (0, 1), (0, 1)),
    altitude := Option.none,
    timeStamp := some (PyVal.tup [PyVal.tup [PyVal.int 10, PyVal.int 1],
      PyVal.tup [PyVal.int 20, PyVal.int 1], PyVal.tup [PyVal.int 30, PyVal.int 1]]),
    speedRef := Option.none, speed := Option.none, imgDirectionRef := Option.none,
    imgDirection := Option.none, destBearingRef := Option.none,
    destBearing := Option.none,
    dateStamp := some (PyVal.bytes [50, 48, 50, 52]), posError := Option.none }

/-- Coordinates 1° N, 2° E with altitude and positioning error both (5,2). -/
def gpsMeters : GpsInfo :=
  { latitudeRef := some [78], longitudeRef := some [69],
    latitude := some ((1, 1), (0, 1), (0, 1)),
    longitude := some ((2, 1), (0, 1), (0, 1)),
    altitude := some (5, 2), timeStamp := Option.none, speedRef := Option.none,
    speed := Option.none, imgDirectionRef := Option.none, imgDirection := Option.none,
    destBearingRef := Option.none, destBearing := Option.none,
    dateStamp := Option.none, posError := some (5, 2) }

/-- The display entries `parse_gps_data` produces for `gpsMeters`. -/
def gpsMetersFields : List (String × String) :=
  [("Latitude", "1.000000 N"), ("Longitude", "2.000000 E"),
   ("Google Maps URL", "https://www.google.com/maps?q=1.0,2.0"),
   ("Altitude", "2.50 meters"), ("TimeStamp", "None"), ("Speed", "N/A"),
   ("ImgDirection", "N/A"), ("DestBearing", "N/A"), ("DateStamp", "None"),
   ("PosError", "2.5 meters")]

/-- A tag-name table knowing two ids of one section, id 1 being the
vendor-note field. -/
def tagsW : String → ℕ → Option String :=
  fun _ id => if id = 1 then some "MakerNote" else if id = 2 then some "Model" else Option.none

/-- A one-section metadata dictionary holding a MakerNote tag, a known tag
and an unknown tag id. -/
def exifW : ExifDict :=
  [("0th", [(1, PyVal.bytes [0, 1, 2]), (2, PyVal.bytes [88]), (77, PyVal.int 7)])]

/-! Supporting lemmas. -/

theorem except_bind_ok {ε α β : Type} (a : α) (f : α → Except ε β) :
    (Except.ok a >>= f : Except ε β) = f a := rfl

theorem except_bind_err {ε α β : Type} (e : ε) (f : α → Except ε β) :
    (Except.error e >>= f : Except ε β) = Except.error e := rfl

theorem except_pure {ε α : Type} (a : α) : (pure a : Except ε α) = Except.ok a := rfl

theorem Frac.toRat_mk (n d : ℤ) : Frac.toRat ⟨n, d⟩ = (n : ℚ) / (d : ℚ) := rfl

theorem Frac.toRat_add (f g : Frac) (hf : f.den ≠ 0) (hg : g.den ≠ 0) :
    (f.add g).toRat = f.toRat + g.toRat := by
  have hf2 : ((f.den : ℚ)) ≠ 0 := Int.cast_ne_zero.mpr hf
  have hg2 : ((g.den : ℚ)) ≠ 0 := Int.cast_ne_zero.mpr hg
  unfold Frac.add Frac.toRat
  push_cast
  field_simp

theorem Frac.toRat_divInt (f : Frac) (k : ℤ) : (f.divInt k).toRat = f.toRat / (k : ℚ) := by
  unfold Frac.divInt Frac.toRat
  push_cast
  rw [div_div]

theorem Frac.toRat_neg (f : Frac) : f.neg.toRat = -f.toRat := by
  unfold Frac.neg Frac.toRat
  push_cast
  rw [neg_div]

/-- Evaluation of `convert_to_decimal` on non-zero denominators. -/
theorem convert_to_decimal_eval (dn dd mn md sn sd : ℤ)
    (hdd : dd ≠ 0) (hmd : md ≠ 0) (hsd : sd ≠ 0) :
    convert_to_decimal ((dn, dd), (mn, md), (sn, sd)) =
      Except.ok ((Frac.add ⟨dn, dd⟩ (Frac.divInt ⟨mn, md⟩ 60)).add (Frac.divInt ⟨sn, sd⟩ 3600)) := by
  simp [convert_to_decimal, pydiv, hdd, hmd, hsd, except_bind_ok, except_pure]

/-- The rational value of a successful `convert_to_decimal`. -/
theorem convert_to_decimal_toRat (dn dd mn md sn sd : ℤ)
    (hdd : dd ≠ 0) (hmd : md ≠ 0) (hsd : sd ≠ 0) (f : Frac)
    (h : convert_to_decimal ((dn, dd), (mn, md), (sn, sd)) = Except.ok f) :
    f.toRat = (dn : ℚ) / dd + (mn : ℚ) / md / 60 + (sn : ℚ) / sd / 3600 := by
  rw [convert_to_decimal_eval dn dd mn md sn sd hdd hmd hsd] at h
  cases h
  rw [Frac.toRat_add, Frac.toRat_add, Frac.toRat_divInt, Frac.toRat_divInt, Frac.toRat_mk,
    Frac.toRat_mk, Frac.toRat_mk]
  · push_cast
    norm_num
  all_goals simp [Frac.add, Frac.divInt, hdd, hmd, hsd]

/-- Shape of a successful `parse_gps_data` run with both coordinates present:
the ten display entries in order, in terms of the decoded references, the
converted coordinates and the optional-field helpers. -/
theorem parse_gps_data_ok_fields (g : GpsInfo) (latT lonT : GpsTriple)
    (rlat rlon : String) (flat flon : Frac) (fs : List (String × String))
    (h1 : utf8DecodeStrict (g.latitudeRef.getD [78]) = Except.ok rlat)
    (h2 : utf8DecodeStrict (g.longitudeRef.getD [87]) = Except.ok rlon)
    (hlat : g.latitude = some latT) (hlon : g.longitude = some lonT)
    (hclat : convert_to_decimal latT = Except.ok flat)
    (hclon : convert_to_decimal lonT = Except.ok flon)
    (hp : parse_gps_data g = Except.ok fs) :
    ∃ altF spF idF dbF peF,
      altitude_field g.altitude = Except.ok altF ∧
      ref_tagged_field g.speed g.speedRef = Except.ok spF ∧
      ref_tagged_field g.imgDirection g.imgDirectionRef = Except.ok idF ∧
      ref_tagged_field g.destBearing g.destBearingRef = Except.ok dbF ∧
      pos_error_field g.posError = Except.ok peF ∧
      fs = [("Latitude", formatFixed (if rlat = "S" then flat.neg else flat) 6 ++ " " ++ rlat),
            ("Longitude", formatFixed (if rlon = "W" then flon.neg else flon) 6 ++ " " ++ rlon),
            ("Google Maps URL", get_google_maps_url (if rlat = "S" then flat.neg else flat)
              (if rlon = "W" then flon.neg else flon)),
            ("Altitude", altF),
            ("TimeStamp", format_value (g.timeStamp.getD PyVal.none)),
            ("Speed", spF),
            ("ImgDirection", idF),
            ("DestBearing", dbF),
            ("DateStamp", format_value (g.dateStamp.getD PyVal.none)),
            ("PosError", peF)] := by
  unfold parse_gps_data at hp
  rw [h1, h2, hlat, hlon] at hp
  simp only [except_bind_ok] at hp
  rw [hclat] at hp
  simp only [except_bind_ok] at hp
  rw [hclon] at hp
  simp only [except_bind_ok] at hp
  cases halt : altitude_field g.altitude with
  | error e => rw [halt] at hp; simp only [except_bind_err] at hp; simp at hp
  | ok altF =>
  rw [halt] at hp
  simp only [except_bind_ok] at hp
  cases hsp : ref_tagged_field g.speed g.speedRef with
  | error e => rw [hsp] at hp; simp only [except_bind_err] at hp; simp at hp
  | ok spF =>
  rw [hsp] at hp
  simp only [except_bind_ok] at hp
  cases hid : ref_tagged_field g.imgDirection g.imgDirectionRef with
  | error e => rw [hid] at hp; simp only [except_bind_err] at hp; simp at hp
  | ok idF =>
  rw [hid] at hp
  simp only [except_bind_ok] at hp
  cases hdb : ref_tagged_field g.destBearing g.destBearingRef with
  | error e => rw [hdb] at hp; simp only [except_bind_err] at hp; simp at hp
  | ok dbF =>
  rw [hdb] at hp
  simp only [except_bind_ok] at hp
  cases hpe : pos_error_field g.posError with
  | error e => rw [hpe] at hp; simp only [except_bind_err] at hp; simp at hp
  | ok peF =>
  rw [hpe] at hp
  simp only [except_bind_ok, except_pure, Except.ok.injEq] at hp
  exact ⟨altF, spF, idF, dbF, peF, rfl, rfl, rfl, rfl, rfl, hp.symm⟩

/-- The `continue`-based tag loop prints exactly the non-`MakerNote` tags. -/
theorem printTagLines_eq_filter_map (tags : String → ℕ → Option String) (ifd : String) :
    ∀ entries : List (ℕ × PyVal),
      printTagLines tags ifd entries =
        (entries.filter (fun e => resolveTagName tags ifd e.1 ≠ "MakerNote")).map
          (fun e => "  " ++ resolveTagName tags ifd e.1 ++ ": " ++ format_value e.2) := by
  intro entries
  induction entries with
  | nil => rfl
  | cons e rest ih =>
    obtain ⟨id, v⟩ := e
    by_cases h : resolveTagName tags ifd id = "MakerNote"
    · simp [printTagLines, h, ih]
    · simp [printTagLines, h, ih]

/-- The ignore-mode decoder maps a pure-ascii byte list to its characters,
given enough fuel. -/
theorem utf8DecodeIgnoreAux_ascii (fuel : ℕ) :
    ∀ bs : List ℕ, bs.length ≤ fuel → (∀ b ∈ bs, b ≤ 0x7F) →
      utf8DecodeIgnoreAux fuel bs = bs.map Char.ofNat := by
  induction fuel with
  | zero =>
    intro bs hlen _
    cases bs with
    | nil => rfl
    | cons b rest => simp at hlen
  | succ fuel ih =>
    intro bs hlen h
    cases bs with
    | nil => rfl
    | cons b rest =>
      have hb : b ≤ 0x7F := h b (by simp)
      have hrest : utf8DecodeIgnoreAux fuel rest = rest.map Char.ofNat :=
        ih rest (by simp at hlen; omega) (fun x hx => h x (by simp [hx]))
      simp [utf8DecodeIgnoreAux, hb, hrest]

/-! Claim theorems. -/

/-- C1: for every GPS coordinate given as a triple of rational pairs with all
denominators non-zero, the decimal-degrees conversion succeeds and its value
equals deg_n/deg_d + (min_n/min_d)/60 + (sec_n/sec_d)/3600, and the
composition is strictly monotonically increasing in each of the three
components when the other two are held fixed. -/
theorem convert_to_decimal_correct :
    (∀ dn dd mn md sn sd : ℤ, dd ≠ 0 → md ≠ 0 → sd ≠ 0 → ∀ f : Frac,
        convert_to_decimal ((dn, dd), (mn, md), (sn, sd)) = Except.ok f →
        f.toRat = (dn : ℚ) / dd + (mn : ℚ) / md / 60 + (sn : ℚ) / sd / 3600) ∧
    (∀ dn dd mn md sn sd : ℤ, dd ≠ 0 → md ≠ 0 → sd ≠ 0 →
        ∃ f : Frac, convert_to_decimal ((dn, dd), (mn, md), (sn, sd)) = Except.ok f) ∧
    (∀ dn dd dn2 dd2 mn md sn sd : ℤ, ∀ f f2 : Frac,
        dd ≠ 0 → dd2 ≠ 0 → md ≠ 0 → sd ≠ 0 →
        convert_to_decimal ((dn, dd), (mn, md), (sn, sd)) = Except.ok f →
        convert_to_decimal ((dn2, dd2), (mn, md), (sn, sd)) = Except.ok f2 →
        (dn : ℚ) / dd < (dn2 : ℚ) / dd2 → f.toRat < f2.toRat) ∧
    (∀ dn dd mn md mn2 md2 sn sd : ℤ, ∀ f f2 : Frac,
        dd ≠ 0 → md ≠ 0 → md2 ≠ 0 → sd ≠ 0 →
        convert_to_decimal ((dn, dd), (mn, md), (sn, sd)) = Except.ok f →
        convert_to_decimal ((dn, dd), (mn2, md2), (sn, sd)) = Except.ok f2 →
        (mn : ℚ) / md < (mn2 : ℚ) / md2 → f.toRat < f2.toRat) ∧
    (∀ dn dd mn md sn sd sn2 sd2 : ℤ, ∀ f f2 : Frac,
        dd ≠ 0 → md ≠ 0 → sd ≠ 0 → sd2 ≠ 0 →
        convert_to_decimal ((dn, dd), (mn, md), (sn, sd)) = Except.ok f →
        convert_to_decimal ((dn, dd), (mn, md), (sn2, sd2)) = Except.ok f2 →
        (sn : ℚ) / sd < (sn2 : ℚ) / sd2 → f.toRat < f2.toRat) := by
  refine ⟨?_, ?_, ?_, ?_, ?_⟩
  · intro dn dd mn md sn sd hdd hmd hsd f hf
    exact convert_to_decimal_toRat dn dd mn md sn sd hdd hmd hsd f hf
  · intro dn dd mn md sn sd hdd hmd hsd
    exact ⟨_, convert_to_decimal_eval dn dd mn md sn sd hdd hmd hsd⟩
  · intro dn dd dn2 dd2 mn md sn sd f f2 hdd hdd2 hmd hsd hf hf2 hlt
    rw [convert_to_decimal_toRat dn dd mn md sn sd hdd hmd hsd f hf,
      convert_to_decimal_toRat dn2 dd2 mn md sn sd hdd2 hmd hsd f2 hf2]
    linarith
  · intro dn dd mn md mn2 md2 sn sd f f2 hdd hmd hmd2 hsd hf hf2 hlt
    rw [convert_to_decimal_toRat dn dd mn md sn sd hdd hmd hsd f hf,
      convert_to_decimal_toRat dn dd mn2 md2 sn sd hdd hmd2 hsd f2 hf2]
    linarith
  · intro dn dd mn md sn sd sn2 sd2 f f2 hdd hmd hsd hsd2 hf hf2 hlt
    rw [convert_to_decimal_toRat dn dd mn md sn sd hdd hmd hsd f hf,
      convert_to_decimal_toRat dn dd mn md sn2 sd2 hdd hmd hsd2 f2 hf2]
    linarith

/-- C1 witness: (40,1),(30,1),(0,1) converts to 40.5 degrees, and raising the
degrees component to 41 raises the value. -/
theorem convert_to_decimal_correct_witness :
    Frac.toRat ⟨8748000, 216000⟩ =
      (40 : ℚ) / 1 + (30 : ℚ) / 1 / 60 + (0 : ℚ) / 1 / 3600 ∧
    Frac.toRat ⟨8748000, 216000⟩ < Frac.toRat ⟨8964000, 216000⟩ :=
  ⟨convert_to_decimal_correct.1 40 1 30 1 0 1 (by decide) (by decide) (by decide)
      ⟨8748000, 216000⟩ (by decide),
   convert_to_decimal_correct.2.2.1 40 1 41 1 30 1 0 1 ⟨8748000, 216000⟩ ⟨8964000, 216000⟩
      (by decide) (by decide) (by decide) (by decide) (by decide) (by decide) (by norm_num)⟩

/-- C2 counterexample: latitude (40,1),(30,1),(0,1) with reference S is
displayed with its sign, as the string -40.500000 S, not as the unsigned
40.500000 S the claim states. -/
theorem parse_gps_data_signed_display_cex :
    (parse_gps_data gpsSouth).toOption.bind (fun fs => fs.head?) =
      some ("Latitude", "-40.500000 S") ∧
    (parse_gps_data gpsSouth).toOption.bind (fun fs => fs.head?) ≠
      some ("Latitude", "40.500000 S") := by decide

/-- C2 amended: the Latitude and Longitude display strings show the signed
decimal degrees formatted to six decimal places, suffixed with the original
hemisphere reference letter. -/
theorem parse_gps_data_signed_display (g : GpsInfo) (latT lonT : GpsTriple)
    (rlat rlon : String) (flat flon : Frac) (fs : List (String × String))
    (h1 : utf8DecodeStrict (g.latitudeRef.getD [78]) = Except.ok rlat)
    (h2 : utf8DecodeStrict (g.longitudeRef.getD [87]) = Except.ok rlon)
    (hlat : g.latitude = some latT) (hlon : g.longitude = some lonT)
    (hclat : convert_to_decimal latT = Except.ok flat)
    (hclon : convert_to_decimal lonT = Except.ok flon)
    (hp : parse_gps_data g = Except.ok fs) :
    fs.head? = some ("Latitude",
      formatFixed (if rlat = "S" then flat.neg else flat) 6 ++ " " ++ rlat) ∧
    fs[1]? = some ("Longitude",
      formatFixed (if rlon = "W" then flon.neg else flon) 6 ++ " " ++ rlon) := by
  obtain ⟨altF, spF, idF, dbF, peF, _, _, _, _, _, hfs⟩ :=
    parse_gps_data_ok_fields g latT lonT rlat rlon flat flon fs h1 h2 hlat hlon hclat hclon hp
  subst hfs
  exact ⟨rfl, rfl⟩

/-- C2 amended, witness at `gpsSouth`. -/
theorem parse_gps_data_signed_display_witness :
    gpsSouthFields.head? = some ("Latitude",
      formatFixed (if "S" = "S" then Frac.neg ⟨8748000, 216000⟩ else ⟨8748000, 216000⟩) 6
        ++ " " ++ "S") ∧
    gpsSouthFields[1]? = some ("Longitude",
      formatFixed (if "E" = "W" then Frac.neg ⟨0, 216000⟩ else ⟨0, 216000⟩) 6
        ++ " " ++ "E") :=
  parse_gps_data_signed_display gpsSouth ((40, 1), (30, 1), (0, 1)) ((0, 1), (0, 1), (0, 1))
    "S" "E" ⟨8748000, 216000⟩ ⟨0, 216000⟩ gpsSouthFields (by decide) (by decide) rfl rfl
    (by decide) (by decide) (by decide)

/-- C3 counterexample: with both hemisphere reference tags absent the
longitude defaults to reference W, which the sign rule then negates: the
longitude 20.5° is reported as -20.000000 W, not unsigned as the claim
states. -/
theorem parse_gps_data_default_ref_cex :
    (parse_gps_data gpsNoRefs).toOption.bind (fun fs => fs[1]?) =
      some ("Longitude", "-20.000000 W") ∧
    (parse_gps_data gpsNoRefs).toOption.bind (fun fs => fs[1]?) ≠
      some ("Longitude", "20.000000 W") := by decide

/-- C3 amended: an absent latitude reference defaults to N and leaves the
latitude unsigned, but an absent longitude reference defaults to W, so the
longitude is negated; negation is applied exactly when the effective
reference is S (latitude) or W (longitude). -/
theorem parse_gps_data_default_refs (g : GpsInfo) (latT lonT : GpsTriple)
    (flat flon : Frac) (fs : List (String × String))
    (h1 : g.latitudeRef = Option.none) (h2 : g.longitudeRef = Option.none)
    (hlat : g.latitude = some latT) (hlon : g.longitude = some lonT)
    (hclat : convert_to_decimal latT = Except.ok flat)
    (hclon : convert_to_decimal lonT = Except.ok flon)
    (hp : parse_gps_data g = Except.ok fs) :
    fs.head? = some ("Latitude", formatFixed flat 6 ++ " " ++ "N") ∧
    fs[1]? = some ("Longitude", formatFixed flon.neg 6 ++ " " ++ "W") := by
  obtain ⟨altF, spF, idF, dbF, peF, _, _, _, _, _, hfs⟩ :=
    parse_gps_data_ok_fields g latT lonT "N" "W" flat flon fs
      (by rw [h1]; decide) (by rw [h2]; decide) hlat hlon hclat hclon hp
  subst hfs
  constructor
  · simp
  · simp

/-- C3 amended, witness at `gpsNoRefs`. -/
theorem parse_gps_data_default_refs_witness :
    gpsNoRefsFields.head? = some ("Latitude", formatFixed ⟨2160000, 216000⟩ 6 ++ " " ++ "N") ∧
    gpsNoRefsFields[1]? =
      some ("Longitude", formatFixed (Frac.neg ⟨4320000, 216000⟩) 6 ++ " " ++ "W") :=
  parse_gps_data_default_refs gpsNoRefs ((10, 1), (0, 1), (0, 1)) ((20, 1), (0, 1), (0, 1))
    ⟨2160000, 216000⟩ ⟨4320000, 216000⟩ gpsNoRefsFields rfl rfl rfl rfl
    (by decide) (by decide) (by decide)

/-- C4: whenever the latitude triple or the longitude triple is missing from
the GPS section — whatever other tags are present — the decoder reports the
all-N/A ten-field dictionary, so no partial coordinate is ever shown. -/
theorem parse_gps_data_missing_coordinate_na (g : GpsInfo) (r1 r2 : String)
    (h1 : utf8DecodeStrict (g.latitudeRef.getD [78]) = Except.ok r1)
    (h2 : utf8DecodeStrict (g.longitudeRef.getD [87]) = Except.ok r2)
    (h : g.latitude = Option.none ∨ g.longitude = Option.none) :
    parse_gps_data g = Except.ok naFields := by
  unfold parse_gps_data
  rw [h1, h2]
  simp only [except_bind_ok]
  rcases h with h | h
  · rw [h]; cases g.longitude <;> rfl
  · rw [h]; cases g.latitude <;> rfl

/-- C4 witness: a section with latitude, altitude and time stamp present but
longitude absent reports all ten fields as N/A. -/
theorem parse_gps_data_missing_coordinate_na_witness :
    parse_gps_data gpsLatOnly = Except.ok naFields :=
  parse_gps_data_missing_coordinate_na gpsLatOnly "N" "W" (by decide) (by decide)
    (Or.inr rfl)

/-- C5: any failure inside the GPS computation is caught at the dispatcher
step, which reports the single generic extraction-error line carrying the
exception text and produces nothing further; a zero denominator in a present
latitude triple raises exactly the division-by-zero failure. -/
theorem gps_error_caught_at_dispatcher :
    (∀ (g : GpsInfo) (e : String), parse_gps_data g = Except.error e →
        get_exif_data_gps_step g = ["Error extracting EXIF data: " ++ e]) ∧
    (∀ (g : GpsInfo) (dn mn md sn sd : ℤ) (lonT : GpsTriple),
        g.latitudeRef = Option.none → g.longitudeRef = Option.none →
        g.latitude = some ((dn, (0 : ℤ)), (mn, md), (sn, sd)) → g.longitude = some lonT →
        parse_gps_data g = Except.error "division by zero") := by
  constructor
  · intro g e h
    unfold get_exif_data_gps_step
    rw [h]
  · intro g dn mn md sn sd lonT h1 h2 hlat hlon
    have e1 : utf8DecodeStrict (g.latitudeRef.getD [78]) = Except.ok "N" := by
      rw [h1]; decide
    have e2 : utf8DecodeStrict (g.longitudeRef.getD [87]) = Except.ok "W" := by
      rw [h2]; decide
    unfold parse_gps_data
    rw [e1, e2]
    simp only [except_bind_ok]
    rw [hlat, hlon]
    simp [convert_to_decimal, pydiv, except_bind_err, except_bind_ok]

/-- C5 witness: a zero-denominator latitude degrees rational makes the GPS
step print exactly the generic error line. -/
theorem gps_error_caught_at_dispatcher_witness :
    parse_gps_data gpsZeroDen = Except.error "division by zero" ∧
    get_exif_data_gps_step gpsZeroDen =
      ["Error extracting EXIF data: " ++ "division by zero"] := by
  have h := gps_error_caught_at_dispatcher.2 gpsZeroDen 40 30 1 0 1
    ((0, 1), (0, 1), (0, 1)) rfl rfl rfl rfl
  exact ⟨h, gps_error_caught_at_dispatcher.1 gpsZeroDen "division by zero" h⟩

/-- C6 counterexample: for the spec example 48° 51ʹ 29ʺ N, 2° 17ʹ 40ʺ E the
map link embeds the full-precision string forms of the coordinates, not the
six-decimal rounding the claim states. -/
theorem gps_maps_url_not_rounded_cex :
    (parse_gps_data gpsParis).toOption.bind (fun fs => fs[2]?) =
      some ("Google Maps URL",
        "https://www.google.com/maps?q=48.85805555555555555,2.29444444444444444") ∧
    (parse_gps_data gpsParis).toOption.bind (fun fs => fs[2]?) ≠
      some ("Google Maps URL", "https://www.google.com/maps?q=48.858056,2.294444") := by
  decide

/-- C6 amended: the map-link entry has the form
https://www.google.com/maps?q=LAT,LON where LAT and LON are the signed
decimal latitude and longitude in their full-precision natural string form
(no rounding to six decimal places is applied). -/
theorem gps_maps_url_form (g : GpsInfo) (latT lonT : GpsTriple)
    (rlat rlon : String) (flat flon : Frac) (fs : List (String × String))
    (h1 : utf8DecodeStrict (g.latitudeRef.getD [78]) = Except.ok rlat)
    (h2 : utf8DecodeStrict (g.longitudeRef.getD [87]) = Except.ok rlon)
    (hlat : g.latitude = some latT) (hlon : g.longitude = some lonT)
    (hclat : convert_to_decimal latT = Except.ok flat)
    (hclon : convert_to_decimal lonT = Except.ok flon)
    (hp : parse_gps_data g = Except.ok fs) :
    fs[2]? = some ("Google Maps URL",
      "https://www.google.com/maps?q=" ++
        pyFloatStr (if rlat = "S" then flat.neg else flat) ++ "," ++
        pyFloatStr (if rlon = "W" then flon.neg else flon)) := by
  obtain ⟨altF, spF, idF, dbF, peF, _, _, _, _, _, hfs⟩ :=
    parse_gps_data_ok_fields g latT lonT rlat rlon flat flon fs h1 h2 hlat hlon hclat hclon hp
  subst hfs
  rfl

/-- C6 amended, witness at `gpsParis`. -/
theorem gps_maps_url_form_witness :
    gpsParisFields[2]? = some ("Google Maps URL",
      "https://www.google.com/maps?q=" ++
        pyFloatStr (if "N" = "S" then Frac.neg ⟨10553340, 216000⟩ else ⟨10553340, 216000⟩) ++
        "," ++
        pyFloatStr (if "E" = "W" then Frac.neg ⟨495600, 216000⟩ else ⟨495600, 216000⟩)) :=
  gps_maps_url_form gpsParis ((48, 1), (51, 1), (29, 1)) ((2, 1), (17, 1), (40, 1))
    "N" "E" ⟨10553340, 216000⟩ ⟨495600, 216000⟩ gpsParisFields (by decide) (by decide)
    rfl rfl (by decide) (by decide) (by decide)

/-- C7 counterexample: with both coordinates present and the time-stamp tag
absent, the TimeStamp entry reads None (Python str of None passed through the
formatter), not N/A as the claim states; likewise DateStamp. -/
theorem gps_stamp_absent_none_cex :
    (parse_gps_data gpsNoStamps).toOption.bind (fun fs => fs[4]?) =
      some ("TimeStamp", "None") ∧
    (parse_gps_data gpsNoStamps).toOption.bind (fun fs => fs[4]?) ≠
      some ("TimeStamp", "N/A") ∧
    (parse_gps_data gpsNoStamps).toOption.bind (fun fs => fs[8]?) =
      some ("DateStamp", "None") := by decide

/-- C7 amended: the TimeStamp and DateStamp entries are the Value Formatter
applied to the raw tag value when present and to Python None when absent —
an absent tag therefore reads None, never N/A. -/
theorem gps_stamp_fields_format_value (g : GpsInfo) (latT lonT : GpsTriple)
    (rlat rlon : String) (flat flon : Frac) (fs : List (String × String))
    (h1 : utf8DecodeStrict (g.latitudeRef.getD [78]) = Except.ok rlat)
    (h2 : utf8DecodeStrict (g.longitudeRef.getD [87]) = Except.ok rlon)
    (hlat : g.latitude = some latT) (hlon : g.longitude = some lonT)
    (hclat : convert_to_decimal latT = Except.ok flat)
    (hclon : convert_to_decimal lonT = Except.ok flon)
    (hp : parse_gps_data g = Except.ok fs) :
    fs[4]? = some ("TimeStamp", format_value (g.timeStamp.getD PyVal.none)) ∧
    fs[8]? = some ("DateStamp", format_value (g.dateStamp.getD PyVal.none)) ∧
    format_value PyVal.none = "None" := by
  obtain ⟨altF, spF, idF, dbF, peF, _, _, _, _, _, hfs⟩ :=
    parse_gps_data_ok_fields g latT lonT rlat rlon flat flon fs h1 h2 hlat hlon hclat hclon hp
  subst hfs
  exact ⟨rfl, rfl, rfl⟩

/-- C7 amended, witness at `gpsStamps`. -/
theorem gps_stamp_fields_format_value_witness :
    ((parse_gps_data gpsStamps).toOption.getD [])[4]? =
      some ("TimeStamp", format_value (gpsStamps.timeStamp.getD PyVal.none)) ∧
    ((parse_gps_data gpsStamps).toOption.getD [])[8]? =
      some ("DateStamp", format_value (gpsStamps.dateStamp.getD PyVal.none)) := by
  have h := gps_stamp_fields_format_value gpsStamps ((1, 1), (0, 1), (0, 1))
    ((2, 1), (0, 1), (0, 1)) "N" "E" ⟨216000, 216000⟩ ⟨432000, 216000⟩
    ((parse_gps_data gpsStamps).toOption.getD []) (by decide) (by decide) rfl rfl
    (by decide) (by decide) (by decide)
  exact ⟨h.1, h.2.1⟩

/-- C8 counterexample: a positioning-error rational (5,2) is displayed as
2.5 meters — plain str form, not the two-decimal 2.50 meters the claim
states — while the altitude (5,2) is displayed as 2.50 meters. -/
theorem gps_pos_error_format_cex :
    (parse_gps_data gpsMeters).toOption.bind (fun fs => fs[3]?) =
      some ("Altitude", "2.50 meters") ∧
    (parse_gps_data gpsMeters).toOption.bind (fun fs => fs[9]?) =
      some ("PosError", "2.5 meters") ∧
    (parse_gps_data gpsMeters).toOption.bind (fun fs => fs[9]?) ≠
      some ("PosError", "2.50 meters") := by decide

/-- C8 amended: a present altitude rational (n,d) with d non-zero shows n/d
to exactly two decimal places with a meters unit; a present
positioning-error rational shows n/d in plain str form with a meters unit
(no two-decimal formatting); either field reads N/A when absent. -/
theorem gps_altitude_pos_error_fields (g : GpsInfo) (latT lonT : GpsTriple)
    (rlat rlon : String) (flat flon : Frac) (fs : List (String × String))
    (h1 : utf8DecodeStrict (g.latitudeRef.getD [78]) = Except.ok rlat)
    (h2 : utf8DecodeStrict (g.longitudeRef.getD [87]) = Except.ok rlon)
    (hlat : g.latitude = some latT) (hlon : g.longitude = some lonT)
    (hclat : convert_to_decimal latT = Except.ok flat)
    (hclon : convert_to_decimal lonT = Except.ok flon)
    (hp : parse_gps_data g = Except.ok fs) :
    (∀ n d : ℤ, g.altitude = some (n, d) → d ≠ 0 →
        fs[3]? = some ("Altitude", formatFixed ⟨n, d⟩ 2 ++ " meters")) ∧
    (g.altitude = Option.none → fs[3]? = some ("Altitude", "N/A")) ∧
    (∀ n d : ℤ, g.posError = some (n, d) → d ≠ 0 →
        fs[9]? = some ("PosError", pyFloatStr ⟨n, d⟩ ++ " meters")) ∧
    (g.posError = Option.none → fs[9]? = some ("PosError", "N/A")) := by
  obtain ⟨altF, spF, idF, dbF, peF, halt, hsp, hid, hdb, hpe, hfs⟩ :=
    parse_gps_data_ok_fields g latT lonT rlat rlon flat flon fs h1 h2 hlat hlon hclat hclon hp
  subst hfs
  refine ⟨?_, ?_, ?_, ?_⟩
  · intro n d hn hd
    rw [hn] at halt
    simp [altitude_field, pydiv, hd, except_bind_ok, except_pure] at halt
    subst halt
    rfl
  · intro hn
    rw [hn] at halt
    simp [altitude_field, except_pure] at halt
    subst halt
    rfl
  · intro n d hn hd
    rw [hn] at hpe
    simp [pos_error_field, pydiv, hd, except_bind_ok, except_pure] at hpe
    subst hpe
    rfl
  · intro hn
    rw [hn] at hpe
    simp [pos_error_field, except_pure] at hpe
    subst hpe
    rfl

/-- C8 amended, witness at `gpsMeters`. -/
theorem gps_altitude_pos_error_fields_witness :
    gpsMetersFields[3]? = some ("Altitude", formatFixed ⟨5, 2⟩ 2 ++ " meters") ∧
    gpsMetersFields[9]? = some ("PosError", pyFloatStr ⟨5, 2⟩ ++ " meters") := by
  have h := gps_altitude_pos_error_fields gpsMeters ((1, 1), (0, 1), (0, 1))
    ((2, 1), (0, 1), (0, 1)) "N" "E" ⟨216000, 216000⟩ ⟨432000, 216000⟩ gpsMetersFields
    (by decide) (by decide) rfl rfl (by decide) (by decide) (by decide)
  exact ⟨h.1 5 2 rfl (by decide), h.2.2.1 5 2 rfl (by decide)⟩

/-- C9: for every byte-sequence input the Value Formatter returns exactly the
ignore-mode utf-8 decode, which is total — decoding with invalid bytes
skipped never fails, so the byte-count placeholder branch of the script is
unreachable and no exception escapes — and on pure-ascii input it returns
the corresponding text. -/
theorem format_value_bytes_decodes :
    (∀ bs : List ℕ, format_value (PyVal.bytes bs) = utf8DecodeIgnore bs) ∧
    (∀ bs : List ℕ, (∀ b ∈ bs, b ≤ 0x7F) →
        format_value (PyVal.bytes bs) = String.mk (bs.map Char.ofNat)) := by
  constructor
  · intro bs
    rfl
  · intro bs h
    show utf8DecodeIgnore bs = _
    unfold utf8DecodeIgnore utf8DecodeIgnoreChars
    rw [utf8DecodeIgnoreAux_ascii bs.length bs le_rfl h]

/-- C9 witness: the ascii bytes of Hello decode to that text. -/
theorem format_value_bytes_decodes_witness :
    format_value (PyVal.bytes [72, 101, 108, 108, 111]) =
      String.mk ([72, 101, 108, 108, 111].map Char.ofNat) :=
  format_value_bytes_decodes.2 [72, 101, 108, 108, 111] (by decide)

/-- C10: printing a section present in the dictionary yields its header
followed by exactly the non-MakerNote tags, each as an indented
name: formatted_value line — a tag resolving to MakerNote is never printed —
and a tag id unknown to the name table displays as its raw numeric id. -/
theorem print_exif_data_excludes_maker_note :
    (∀ (tags : String → ℕ → Option String) (d : ExifDict) (ifd : String)
        (entries : List (ℕ × PyVal)), lookupSection d ifd = some entries →
        print_exif_data tags d ifd =
          (ifd ++ " EXIF Data:") ::
            (entries.filter (fun e => resolveTagName tags ifd e.1 ≠ "MakerNote")).map
              (fun e => "  " ++ resolveTagName tags ifd e.1 ++ ": " ++ format_value e.2)) ∧
    (∀ (tags : String → ℕ → Option String) (ifd : String) (id : ℕ),
        tags ifd id = Option.none → resolveTagName tags ifd id = toString id) := by
  constructor
  · intro tags d ifd entries h
    unfold print_exif_data
    rw [h]
    simp only [printTagLines_eq_filter_map]
  · intro tags ifd id h
    unfold resolveTagName
    rw [h]
    rfl

/-- C10 witness: a section holding a MakerNote tag, a known tag and an
unknown id prints the header, the known tag and the raw-id tag only. -/
theorem print_exif_data_excludes_maker_note_witness :
    print_exif_data tagsW exifW "0th" = ["0th EXIF Data:", "  Model: X", "  77: 7"] := by
  have h := print_exif_data_excludes_maker_note.1 tagsW exifW "0th"
    [(1, PyVal.bytes [0, 1, 2]), (2, PyVal.bytes [88]), (77, PyVal.int 7)] rfl
  rw [h]
  decide

end ExifExtract
